import Mathlib

/-!
Verification development for the finsights document-ingestion pipeline.

The definitions in this file are a shallow embedding of the Python sources:
* `finsights/db/connection.py`  — the SQLite-backed document store,
* `finsights/services/fetcher/link_fetcher.py` — paginated discovery and registration,
* `finsights/services/converter/pdf_to_text.py` — PDF-to-text conversion.

The store is modelled as a list of rows; each SQL statement becomes the
corresponding pure list operation; the `get_conn` context manager becomes an
explicit commit/rollback wrapper; Python exceptions become an error type
threaded through `Except` / `Option`.
-/

namespace Finsights

/-- The `processing_status` column values used by the code. -/
inductive Status
  | discovered
  | downloaded
  | parsed
  | failed
deriving DecidableEq, Repr

/-- One row of the `documents` table, with the columns touched by
`connection.py`.  `Option` fields are nullable columns that an INSERT leaves
NULL. -/
structure Row where
  transcript_uuid : String
  company_name : String
  script_code : String
  pdf_url : String
  pdf_url_sha256 : String
  json_text : String
  created_at : String
  announcement_date : String
  updated_at : String
  processing_status : Status
  pdf_file_name : Option String
  pdf_created_at : Option String
  text_file_name : Option String
  text_file_created_at : Option String
  error_message : Option String
deriving DecidableEq, Repr

/-- The `documents` table: a list of rows, in insertion order. -/
abbrev Store := List Row

/-- The Python exceptions that the embedded code can raise. -/
inductive PyExc
  | notFound (uuid : String)
  | invalidTransition (expected found : Status)
  | integrityError
  | keyError (key : String)
  | timeoutError
  | clientError (msg : String)
  | typeError (msg : String)
  | zeroDivisionError
deriving DecidableEq, Repr

/-- `get_conn` (connection.py lines 11-22): run the transaction body; commit
its writes when it finishes normally, roll them back (returning the caller to
the pre-transaction store) when it raises.  The first component of the result
is the store visible after the call, the second the exception, if any. -/
def getConn (s : Store) (body : Store → Store × Option PyExc) : Store × Option PyExc :=
  match body s with
  | (s2, none) => (s2, none)
  | (_, some e) => (s, some e)

/-- `WHERE transcript_uuid = ?` as a row predicate. -/
def rowMatches (uuid : String) (r : Row) : Bool :=
  decide (r.transcript_uuid = uuid)

/-- `SELECT ... WHERE transcript_uuid = ?` followed by `fetchone()`: the first
matching row, if any. -/
def findRow (s : Store) (uuid : String) : Option Row :=
  s.find? (rowMatches uuid)

/-- `WHERE transcript_uuid=? AND processing_status=?`, the guard of the two
conditional transition UPDATEs. -/
def guardCond (uuid : String) (st : Status) (r : Row) : Bool :=
  decide (r.transcript_uuid = uuid ∧ r.processing_status = st)

/-- The SET clause of `mark_document_downloaded`.  `now1` and `now2` are the
two `now_ist_str()` calls made for `updated_at` and `pdf_created_at`. -/
def setDownloaded (now1 now2 f : String) (r : Row) : Row :=
  { r with processing_status := Status.downloaded, updated_at := now1,
           pdf_created_at := some now2, pdf_file_name := some f }

/-- `mark_document_downloaded` (connection.py lines 60-82): one conditional
UPDATE gated on `processing_status='discovered'`; when it matches zero rows the
row is re-read and the call raises `ValueError` — either "not found" or
"Expected 'discovered', found X" — which `get_conn` turns into a rollback. -/
def mark_document_downloaded (now1 now2 : String) (s : Store) (uuid f : String) :
    Store × Option PyExc :=
  getConn s (fun s0 =>
    let rowcount := s0.countP (guardCond uuid Status.discovered)
    let s1 := s0.map (fun r =>
      if guardCond uuid Status.discovered r then setDownloaded now1 now2 f r else r)
    if rowcount = 0 then
      match findRow s0 uuid with
      | none => (s1, some (PyExc.notFound uuid))
      | some r => (s1, some (PyExc.invalidTransition Status.discovered r.processing_status))
    else (s1, none))

/-- The SET clause of `mark_document_parsed`. -/
def setParsed (now1 now2 f : String) (r : Row) : Row :=
  { r with processing_status := Status.parsed, updated_at := now1,
           text_file_created_at := some now2, text_file_name := some f }

/-- `mark_document_parsed` (connection.py lines 85-106): same shape as
`mark_document_downloaded`, gated on `processing_status='downloaded'`. -/
def mark_document_parsed (now1 now2 : String) (s : Store) (uuid f : String) :
    Store × Option PyExc :=
  getConn s (fun s0 =>
    let rowcount := s0.countP (guardCond uuid Status.downloaded)
    let s1 := s0.map (fun r =>
      if guardCond uuid Status.downloaded r then setParsed now1 now2 f r else r)
    if rowcount = 0 then
      match findRow s0 uuid with
      | none => (s1, some (PyExc.notFound uuid))
      | some r => (s1, some (PyExc.invalidTransition Status.downloaded r.processing_status))
    else (s1, none))

/-- The SET clause of `mark_document_failed`. -/
def setFailed (now msg : String) (r : Row) : Row :=
  { r with processing_status := Status.failed, updated_at := now,
           error_message := some msg }

/-- `mark_document_failed` (connection.py lines 108-120): an unconditional
UPDATE on the id; no rowcount check, no re-read, never raises. -/
def mark_document_failed (now : String) (s : Store) (uuid msg : String) :
    Store × Option PyExc :=
  getConn s (fun s0 =>
    (s0.map (fun r => if rowMatches uuid r then setFailed now msg r else r), none))

/-- A Python dict with string keys and string values, as passed to
`insert_document`. -/
abbrev PyDict := List (String × String)

/-- `doc[k]`: dict lookup, raising `KeyError` when the key is absent. -/
def dictGet (d : PyDict) (k : String) : Except PyExc String :=
  match d.find? (fun p => decide (p.1 = k)) with
  | some p => Except.ok p.2
  | none => Except.error (PyExc.keyError k)

/-- The VALUES tuple of `insert_document` (connection.py lines 24-36),
evaluated left to right exactly as Python evaluates the argument tuple:
`doc["uuid"]` first, so a dict missing that key raises `KeyError('uuid')`
before anything else is read.  `now1`/`now2` are the two `now_ist_str()`
calls for `created_at` and `updated_at`. -/
def buildInsertRow (now1 now2 : String) (doc : PyDict) : Except PyExc Row := do
  let uuidv ← dictGet doc "uuid"
  let cname ← dictGet doc "company_name"
  let scode ← dictGet doc "script_code"
  let purl ← dictGet doc "pdf_url"
  let psha ← dictGet doc "pdf_url_sha256"
  let jtext ← dictGet doc "json_text"
  let adate ← dictGet doc "announcement_date"
  pure { transcript_uuid := uuidv, company_name := cname, script_code := scode,
         pdf_url := purl, pdf_url_sha256 := psha, json_text := jtext,
         created_at := now1, announcement_date := adate, updated_at := now2,
         processing_status := Status.discovered, pdf_file_name := none,
         pdf_created_at := none, text_file_name := none,
         text_file_created_at := none, error_message := none }

/-- Modelled from the spec: the schema file `finsights/db/sql/table_schema.sql`
is loaded by the tests but is not present under `src/`.  Spec section 3 states
that `pdf_url_sha256` is unique across all documents and that
`transcript_uuid` is the unique document identifier, so an INSERT that repeats
either value violates a uniqueness constraint and raises
`sqlite3.IntegrityError`. -/
def violatesUnique (s : Store) (r : Row) : Bool :=
  s.any (fun r0 =>
    decide (r0.pdf_url_sha256 = r.pdf_url_sha256 ∨ r0.transcript_uuid = r.transcript_uuid))

/-- `insert_document` (connection.py lines 24-36): build the VALUES tuple from
the dict (which may raise `KeyError`), then INSERT a fresh row with
`processing_status='discovered'`, or raise `IntegrityError` on a uniqueness
violation. -/
def insert_document (now1 now2 : String) (s : Store) (doc : PyDict) :
    Store × Option PyExc :=
  getConn s (fun s0 =>
    match buildInsertRow now1 now2 doc with
    | Except.error e => (s0, some e)
    | Except.ok r =>
      if violatesUnique s0 r then (s0, some PyExc.integrityError)
      else (s0 ++ [r], none))

/-! ### Discovery fetcher (`link_fetcher.py`) -/

/-- One announcement of the feed, with the keys `link_fetcher.py` reads.
`ann.get("NEWSSUB")` and `ann.get("ATTACHMENTNAME")` pass through
`(... or "")`, so an absent or None key behaves exactly like the empty
string; the fields are therefore plain strings. -/
structure Ann where
  NEWSSUB : String
  ATTACHMENTNAME : String
  SLONGNAME : String
  SCRIP_CD : String
  NEWS_DT : String
deriving DecidableEq, Repr

/-- Python `str.lower()` (the fields compared are ASCII). -/
def pyLower (x : String) : String := ⟨x.data.map Char.toLower⟩

/-- Python `str.strip()`: drop leading and trailing whitespace. -/
def pyStrip (x : String) : String :=
  ⟨((x.data.dropWhile Char.isWhitespace).reverse.dropWhile Char.isWhitespace).reverse⟩

/-- Python `needle in hay`: the needle occurs contiguously in the haystack. -/
def pyContains (hay needle : String) : Bool := decide (needle.data <:+: hay.data)

/-- Python `x.endswith(suffix)`. -/
def pyEndsWith (x suffix : String) : Bool := suffix.data.isSuffixOf x.data

/-- `_is_transcript` (link_fetcher.py lines 52-57): subject line contains the
marker phrase (case-insensitively, after strip) and the attachment name ends
in ".pdf". -/
def is_transcript (ann : Ann) : Bool :=
  let newssub := pyLower (pyStrip ann.NEWSSUB)
  let attachment := pyLower (pyStrip ann.ATTACHMENTNAME)
  pyContains newssub "earnings call transcript" && pyEndsWith attachment ".pdf"

/-- `filter_transcripts_from_json` (link_fetcher.py lines 60-66): keep the
announcements of the page that pass `_is_transcript`, in page order. -/
def filter_transcripts_from_json (table : List Ann) : List Ann :=
  table.filter is_transcript

/-- A feed page envelope: `json.get("Table", [])` (an absent results array
behaves as the empty list) and `json["Table1"][0]["ROWCNT"]`. -/
structure Envelope where
  table : List Ann
  rowcnt : Nat
deriving DecidableEq, Repr

/-- The outcome of `_fetch_page` for one page: a decoded envelope, or a raised
exception (`asyncio.TimeoutError` for timeouts, `clientError` for transport
errors, HTTP error statuses and malformed responses). -/
inductive FetchOutcome
  | ok (env : Envelope)
  | raise (e : PyExc)
deriving DecidableEq, Repr

/-- The message CPython produces when an `except` clause names a class that is
not derived from BaseException. -/
def badExceptClauseMsg : String :=
  "catching classes that do not inherit from BaseException is not allowed"

/-- `fetch_and_filter` (link_fetcher.py lines 88-110), including the exact
CPython handler-matching semantics of its try/except:
the first clause, `except asyncio.TimeoutError`, catches timeouts and returns
`[]`; for any other exception the second clause `except aiohttp.ClientTimeout`
is evaluated next, and because `aiohttp.ClientTimeout` is a configuration
class, not an exception class, evaluating that clause itself raises
`TypeError`, which propagates — the final `except Exception` clause is never
reached. -/
def fetch_and_filter (fetches : Nat → FetchOutcome) (p : Nat) : Except PyExc (List Ann) :=
  match fetches p with
  | FetchOutcome.ok env => Except.ok (filter_transcripts_from_json env.table)
  | FetchOutcome.raise e =>
    match e with
    | PyExc.timeoutError => Except.ok []
    | _ => Except.error (PyExc.typeError badExceptClauseMsg)

/-- `asyncio.gather(*tasks)` without `return_exceptions`: every task runs, the
results are collected in task order, and if any task raised, the exception
propagates to the awaiting caller.  In this deterministic model the exception
of the lowest-numbered failing page is the one propagated; the claims depend
only on whether some exception propagates. -/
def gatherExcept : List (Except PyExc (List Ann)) → Except PyExc (List (List Ann))
  | [] => Except.ok []
  | Except.error e :: _ => Except.error e
  | Except.ok v :: rest =>
    match gatherExcept rest with
    | Except.ok vs => Except.ok (v :: vs)
    | Except.error e => Except.error e

/-- `total_pages = max(1, math.ceil(total_rows / page_size))` (link_fetcher.py
lines 79-81).  Python division raises `ZeroDivisionError` when `page_size` is
0; otherwise `math.ceil` of the exact quotient is the rounded-up natural
division `(total_rows + page_size - 1) / page_size`. -/
def compute_total_pages (total_rows page_size : Nat) : Except PyExc Nat :=
  if page_size = 0 then Except.error PyExc.zeroDivisionError
  else Except.ok (max 1 ((total_rows + page_size - 1) / page_size))

/-- `create_transcript_list` (link_fetcher.py lines 67-118): fetch page 1
directly (any exception propagates), filter it, compute the page count from
its envelope, then gather `fetch_and_filter` over pages `2..total_pages` and
append their contributions in page order. -/
def create_transcript_list (fetches : Nat → FetchOutcome) : Except PyExc (List Ann) :=
  match fetches 1 with
  | FetchOutcome.raise e => Except.error e
  | FetchOutcome.ok env1 =>
    let transcripts1 := filter_transcripts_from_json env1.table
    match compute_total_pages env1.rowcnt env1.table.length with
    | Except.error e => Except.error e
    | Except.ok total_pages =>
      if total_pages > 1 then
        match gatherExcept ((List.range' 2 (total_pages - 1)).map (fetch_and_filter fetches)) with
        | Except.error e => Except.error e
        | Except.ok pages => Except.ok (transcripts1 ++ pages.flatten)
      else Except.ok transcripts1

/-! ### Document registrar (`transcripts_to_dbstate`, link_fetcher.py lines 122-148) -/

/-- config.py constants. -/
def BSE_PDF_URL_PAST : String := "https://www.bseindia.com/xml-data/corpfiling/AttachHis/"

def BSE_PDF_URL_CURRENT : String := "https://www.bseindia.com/xml-data/corpfiling/AttachLive/"

def MAX_CONCURRENT_CONVERSION_WORKERS : Nat := 10

/-- `datetime.strptime(news_dt, "%Y-%m-%dT%H:%M:%S.%f").strftime("%Y-%m-%dT%H:%M:%S")`
for a well-formed feed timestamp: keep everything before the fractional-second
dot. -/
def stripFractionalSeconds (dt : String) : String :=
  ⟨dt.data.takeWhile (fun c => decide (c ≠ '.'))⟩

/-- The ambient effects used by `transcripts_to_dbstate`: `isOld news_dt`
stands for `datetime.strptime(news_dt, ...) < datetime.now() - timedelta(days=60)`,
`sha256hex` for `hashlib.sha256(...).hexdigest()`, and `freshUuid i` for the
`str(uuid.uuid4())` generated for the i-th list element. -/
structure RegistrarEnv where
  isOld : String → Bool
  sha256hex : String → String
  freshUuid : Nat → String

/-- `transcripts_to_dbstate` (link_fetcher.py lines 122-148): for each
transcript build the `dbstate` dict with exactly the keys written by the
source — "transcript_uuid", "company_name", "script_code", "pdf_url",
"pdf_url_sha256", "announcement_date" — and call `insert_document`.  Only
`sqlite3.IntegrityError` is caught (the duplicate is skipped); any other
exception propagates to the caller. -/
def transcripts_to_dbstate (env : RegistrarEnv) (now1 now2 : String) :
    Store → Nat → List Ann → Store × Except PyExc (List String)
  | s, _, [] => (s, Except.ok [])
  | s, i, t :: ts =>
    let pdf_url :=
      (if env.isOld t.NEWS_DT then BSE_PDF_URL_PAST else BSE_PDF_URL_CURRENT) ++ t.ATTACHMENTNAME
    let formatted := stripFractionalSeconds t.NEWS_DT
    let dbstate : PyDict :=
      [("transcript_uuid", env.freshUuid i),
       ("company_name", t.SLONGNAME),
       ("script_code", t.SCRIP_CD),
       ("pdf_url", pdf_url),
       ("pdf_url_sha256", env.sha256hex pdf_url),
       ("announcement_date", formatted)]
    match insert_document now1 now2 s dbstate with
    | (s2, none) =>
      match transcripts_to_dbstate env now1 now2 s2 (i + 1) ts with
      | (s3, Except.ok ids) => (s3, Except.ok (env.freshUuid i :: ids))
      | (s3, Except.error e) => (s3, Except.error e)
    | (s2, some PyExc.integrityError) => transcripts_to_dbstate env now1 now2 s2 (i + 1) ts
    | (s2, some e) => (s2, Except.error e)

/-! ### Conversion stage (`pdf_to_text.py`) -/

/-- The text directory as an association list from file name to file content;
later operations update the first binding of a name. -/
abbrev FS := List (String × String)

/-- The content of file `n`, if present (the first binding of the name). -/
def fsGet : FS → String → Option String
  | [], _ => none
  | (k, v) :: fs, n => if k = n then some v else fsGet fs n

/-- Write file `n` with content `c` (create or overwrite). -/
def fsSet : FS → String → String → FS
  | [], n, c => [(n, c)]
  | (k, v) :: fs, n, c => if k = n then (n, c) :: fs else (k, v) :: fsSet fs n c

/-- Remove file `n`. -/
def fsDel : FS → String → FS
  | [], _ => []
  | (k, v) :: fs, n => if k = n then fsDel fs n else (k, v) :: fsDel fs n

/-- `os.replace(src, dst)`: atomically rename `src` onto `dst` (one observable
step that removes `src` and makes its content appear under `dst`). -/
def osReplace (fs : FS) (src dst : String) : FS :=
  match fsGet fs src with
  | some c => fsSet (fsDel fs src) dst c
  | none => fs

/-- `text_file_name = f"{transcript_uuid}.txt"`. -/
def textFileName (u : String) : String := u ++ ".txt"

/-- `temp_text_file_name = f"temp_{transcript_uuid}.txt"` — the distinctly
prefixed staging file, placed in the same text directory. -/
def tempTextFileName (u : String) : String := "temp_" ++ u ++ ".txt"

/-- The outcome of `page.extract_text()` for one page: extracted text (where
Python `or ""` maps a None result to the empty string), or an exception, in
which case the loop logs and `continue`s without writing this page. -/
inductive PageOutcome
  | text (t : Option String)
  | raise
deriving DecidableEq, Repr

/-- The chunk written to the staging file for page index `i` (0-based):
`"\n--- Page {i+1} ---\n"` followed by the extracted text; `none` when the
extraction raised, since the write is then skipped. -/
def pageChunk (i : Nat) : PageOutcome → Option String
  | PageOutcome.text t => some ("\n--- Page " ++ toString (i + 1) ++ " ---\n" ++ t.getD "")
  | PageOutcome.raise => none

/-- The full converted content: the concatenation of all written page chunks
starting at page index `i`. -/
def finalText : Nat → List PageOutcome → String
  | _, [] => ""
  | i, p :: ps => (pageChunk i p).getD "" ++ finalText (i + 1) ps

/-- The successive states of the text directory produced by the page-writing
loop of `convert_pdf_to_text` (pdf_to_text.py lines 44-57): each successful
page extraction appends its chunk to the staging file `temp`, producing one
observable directory state. -/
def write_states (temp : String) : FS → String → Nat → List PageOutcome → List FS
  | _, _, _, [] => []
  | fs, acc, i, p :: ps =>
    match pageChunk i p with
    | some chunk =>
      let acc2 := acc ++ chunk
      let fs2 := fsSet fs temp acc2
      fs2 :: write_states temp fs2 acc2 (i + 1) ps
    | none => write_states temp fs acc (i + 1) ps

/-- All observable states of the text directory over a conversion of document
`u` (pdf_to_text.py lines 44-61): the initial state, the state after
`open(temp_text_path, "w")` creates the empty staging file, one state per
page chunk written, and finally the state after
`os.replace(temp_text_path, text_path)`. -/
def conversion_trace (fs0 : FS) (u : String) (pages : List PageOutcome) : List FS :=
  let temp := tempTextFileName u
  let fs1 := fsSet fs0 temp ""
  let writes := write_states temp fs1 "" 0 pages
  let lastFs := writes.getLast?.getD fs1
  fs0 :: fs1 :: writes ++ [osReplace lastFs temp (textFileName u)]

/-- Modelled from the spec: `get_downloaded_documents` is imported by the
converter (pdf_to_text.py line 5) from `finsights.db.connection` but is not
defined in any file under `src/`.  Spec section 4.4: the orchestrator
"Selects every document currently in `downloaded` status"; the selected ids
are what `pool.map` hands to the per-document workers. -/
def get_downloaded_documents (s : Store) : List String :=
  (s.filter (fun r => decide (r.processing_status = Status.downloaded))).map
    (fun r => r.transcript_uuid)

/-- The worker pool size chosen by `convert_pdfs` (pdf_to_text.py line 97):
`min(MAX_CONCURRENT_CONVERSION_WORKERS, len(downloaded_documents))`. -/
def convert_pool_size (s : Store) : Nat :=
  min MAX_CONCURRENT_CONVERSION_WORKERS (get_downloaded_documents s).length

/-- `convert_pdfs` (pdf_to_text.py lines 83-104), with the per-document worker
`convert_pdf_to_text` abstracted as the boolean function `conv`.  `pool.map`
runs `conv` on every selected id and returns the results in input order.  The
first component is the pair of counts the function prints
("Conversion complete: S successful, F failed"), `none` when it returns early
because nothing is pending; the second component is the Python return value,
which is always `None` — the function prints the counts but returns nothing. -/
def convert_pdfs (conv : String → Bool) (s : Store) :
    Option (Nat × Nat) × Option (Nat × Nat) :=
  let docs := get_downloaded_documents s
  if docs.isEmpty then (none, none)
  else
    let results := docs.map conv
    let successful := results.countP (fun b => b)
    (some (successful, results.length - successful), none)

/-! ### General lemmas about the store model -/

/-- The schema makes `transcript_uuid` the unique document identifier, so a
well-formed table has pairwise distinct ids. -/
def StoreWF (s : Store) : Prop :=
  s.Pairwise (fun a b => a.transcript_uuid ≠ b.transcript_uuid)

theorem StoreWF.unique {s : Store} (hwf : StoreWF s) {r r' : Row} (hr : r ∈ s)
    (hr' : r' ∈ s) (h : r.transcript_uuid = r'.transcript_uuid) : r = r' := by
  by_contra hne
  have hsymm : Symmetric (fun a b : Row => a.transcript_uuid ≠ b.transcript_uuid) :=
    fun _ _ hab => fun hba => hab hba.symm
  exact List.Pairwise.forall hsymm hwf hr hr' hne h

theorem map_eq_self_of {α : Type} (l : List α) (f : α → α) (h : ∀ a ∈ l, f a = a) :
    l.map f = l := by
  induction l with
  | nil => rfl
  | cons x xs ih =>
    simp only [List.map_cons, h x (List.mem_cons_self x xs),
      ih (fun a ha => h a (List.mem_cons_of_mem x ha))]

theorem findRow_eq_none {s : Store} {uuid : String} :
    findRow s uuid = none ↔ ∀ r ∈ s, r.transcript_uuid ≠ uuid := by
  simp [findRow, List.find?_eq_none, rowMatches]

theorem findRow_some {s : Store} {uuid : String} {r : Row}
    (h : findRow s uuid = some r) : r ∈ s ∧ r.transcript_uuid = uuid := by
  refine ⟨List.mem_of_find?_eq_some h, ?_⟩
  have := List.find?_some h
  simpa [rowMatches] using this

theorem findRow_map {s : Store} {f : Row → Row}
    (hf : ∀ r, (f r).transcript_uuid = r.transcript_uuid) (uuid : String) :
    findRow (s.map f) uuid = (findRow s uuid).map f := by
  induction s with
  | nil => rfl
  | cons x xs ih =>
    by_cases hx : x.transcript_uuid = uuid
    · simp [findRow, List.find?, rowMatches, hf, hx]
    · simpa [findRow, List.find?, rowMatches, hf, hx] using ih

theorem countP_guard_zero_of_none {s : Store} {uuid : String} (st : Status)
    (h : findRow s uuid = none) : s.countP (guardCond uuid st) = 0 := by
  refine List.countP_eq_zero.mpr (fun r hr => ?_)
  have := findRow_eq_none.mp h r hr
  simp [guardCond, this]

theorem countP_guard_zero_of_wrong {s : Store} {uuid : String} {st : Status} {r : Row}
    (hwf : StoreWF s) (h : findRow s uuid = some r) (hst : r.processing_status ≠ st) :
    s.countP (guardCond uuid st) = 0 := by
  refine List.countP_eq_zero.mpr (fun r' hr' => ?_)
  simp only [guardCond, decide_eq_true_eq, not_and]
  intro huuid hst'
  obtain ⟨hrmem, hruuid⟩ := findRow_some h
  have : r' = r := hwf.unique hr' hrmem (huuid.trans hruuid.symm)
  exact hst (this ▸ hst')

theorem countP_guard_ne_zero {s : Store} {uuid : String} {st : Status} {r : Row}
    (h : findRow s uuid = some r) (hst : r.processing_status = st) :
    s.countP (guardCond uuid st) ≠ 0 := by
  obtain ⟨hrmem, hruuid⟩ := findRow_some h
  have : 0 < s.countP (guardCond uuid st) :=
    List.countP_pos_iff.mpr ⟨r, hrmem, by simp [guardCond, hruuid, hst]⟩
  omega

theorem map_guard_eq_self {s : Store} {uuid : String} {st : Status} {upd : Row → Row}
    (hz : s.countP (guardCond uuid st) = 0) :
    s.map (fun r => if guardCond uuid st r then upd r else r) = s := by
  refine map_eq_self_of s _ (fun r hr => ?_)
  have := List.countP_eq_zero.mp hz r hr
  simp [this]

/-! ### Evaluation lemmas for the guarded transitions -/

theorem mark_downloaded_of_absent {s : Store} {uuid : String} (now1 now2 f : String)
    (h : findRow s uuid = none) :
    mark_document_downloaded now1 now2 s uuid f = (s, some (PyExc.notFound uuid)) := by
  have hz := countP_guard_zero_of_none Status.discovered h
  simp [mark_document_downloaded, getConn, hz, h]

theorem mark_downloaded_of_wrong {s : Store} {uuid : String} {r : Row} (now1 now2 f : String)
    (hwf : StoreWF s) (h : findRow s uuid = some r)
    (hst : r.processing_status ≠ Status.discovered) :
    mark_document_downloaded now1 now2 s uuid f =
      (s, some (PyExc.invalidTransition Status.discovered r.processing_status)) := by
  have hz := countP_guard_zero_of_wrong hwf h hst
  simp [mark_document_downloaded, getConn, hz, h]

theorem mark_downloaded_of_discovered {s : Store} {uuid : String} {r : Row}
    (now1 now2 f : String) (h : findRow s uuid = some r)
    (hst : r.processing_status = Status.discovered) :
    mark_document_downloaded now1 now2 s uuid f =
      (s.map (fun r0 =>
        if guardCond uuid Status.discovered r0 then setDownloaded now1 now2 f r0 else r0),
       none) := by
  have hnz := countP_guard_ne_zero h hst
  simp [mark_document_downloaded, getConn, hnz]

theorem mark_parsed_of_absent {s : Store} {uuid : String} (now1 now2 f : String)
    (h : findRow s uuid = none) :
    mark_document_parsed now1 now2 s uuid f = (s, some (PyExc.notFound uuid)) := by
  have hz := countP_guard_zero_of_none Status.downloaded h
  simp [mark_document_parsed, getConn, hz, h]

theorem mark_parsed_of_wrong {s : Store} {uuid : String} {r : Row} (now1 now2 f : String)
    (hwf : StoreWF s) (h : findRow s uuid = some r)
    (hst : r.processing_status ≠ Status.downloaded) :
    mark_document_parsed now1 now2 s uuid f =
      (s, some (PyExc.invalidTransition Status.downloaded r.processing_status)) := by
  have hz := countP_guard_zero_of_wrong hwf h hst
  simp [mark_document_parsed, getConn, hz, h]

theorem mark_parsed_of_downloaded {s : Store} {uuid : String} {r : Row}
    (now1 now2 f : String) (h : findRow s uuid = some r)
    (hst : r.processing_status = Status.downloaded) :
    mark_document_parsed now1 now2 s uuid f =
      (s.map (fun r0 =>
        if guardCond uuid Status.downloaded r0 then setParsed now1 now2 f r0 else r0),
       none) := by
  have hnz := countP_guard_ne_zero h hst
  simp [mark_document_parsed, getConn, hnz]

/-- The conditional update of a guarded transition never changes a row's id. -/
theorem guard_upd_preserves_uuid (uuid : String) (st : Status) (upd : Row → Row)
    (hupd : ∀ r, (upd r).transcript_uuid = r.transcript_uuid) (r0 : Row) :
    ((fun r => if guardCond uuid st r then upd r else r) r0).transcript_uuid
      = r0.transcript_uuid := by
  by_cases hg : guardCond uuid st r0 <;> simp [hg, hupd]

/-- A sample row for concrete witnesses. -/
def mkRow (uuid : String) (st : Status) : Row :=
  { transcript_uuid := uuid, company_name := "ACME Ltd", script_code := "500325",
    pdf_url := "https://x/doc.pdf", pdf_url_sha256 := "h1", json_text := "jsontext",
    created_at := "2025-01-01T00:00:00", announcement_date := "2025-01-01T00:00:00",
    updated_at := "2025-01-01T00:00:00", processing_status := st,
    pdf_file_name := none, pdf_created_at := none, text_file_name := none,
    text_file_created_at := none, error_message := none }

/-- C1: `mark_downloaded(id, file_name)` succeeds iff the stored row's current
`processing_status` is exactly `discovered`; on success the one conditional
update sets status to `downloaded`, records the file name, stamps the download
timestamp and refreshes `updated_at`, leaving every other document untouched;
when the conditional update matches zero rows, the re-read classifies the
failure as NotFound when the row is absent and otherwise as InvalidTransition
naming the observed current status. -/
theorem C1_mark_downloaded_guarded (now1 now2 : String) (s : Store) (uuid f : String)
    (hwf : StoreWF s) :
    ((mark_document_downloaded now1 now2 s uuid f).2 = none ↔
       ∃ r, findRow s uuid = some r ∧ r.processing_status = Status.discovered)
    ∧ (∀ r, findRow s uuid = some r → r.processing_status = Status.discovered →
        findRow (mark_document_downloaded now1 now2 s uuid f).1 uuid =
          some { r with processing_status := Status.downloaded, updated_at := now1,
                        pdf_created_at := some now2, pdf_file_name := some f }
        ∧ ∀ uuid2, uuid2 ≠ uuid →
            findRow (mark_document_downloaded now1 now2 s uuid f).1 uuid2 =
              findRow s uuid2)
    ∧ (findRow s uuid = none →
        mark_document_downloaded now1 now2 s uuid f = (s, some (PyExc.notFound uuid)))
    ∧ (∀ r, findRow s uuid = some r → r.processing_status ≠ Status.discovered →
        mark_document_downloaded now1 now2 s uuid f =
          (s, some (PyExc.invalidTransition Status.discovered r.processing_status))) := by
  have hpres := guard_upd_preserves_uuid uuid Status.discovered
    (setDownloaded now1 now2 f) (fun r => by simp [setDownloaded])
  refine ⟨?_, ?_, ?_, ?_⟩
  · constructor
    · intro hok
      cases h : findRow s uuid with
      | none => rw [mark_downloaded_of_absent now1 now2 f h] at hok; simp at hok
      | some r =>
        by_cases hst : r.processing_status = Status.discovered
        · exact ⟨r, rfl, hst⟩
        · rw [mark_downloaded_of_wrong now1 now2 f hwf h hst] at hok; simp at hok
    · rintro ⟨r, h, hst⟩
      rw [mark_downloaded_of_discovered now1 now2 f h hst]
  · intro r h hst
    rw [mark_downloaded_of_discovered now1 now2 f h hst]
    obtain ⟨hrmem, hruuid⟩ := findRow_some h
    constructor
    · rw [findRow_map hpres uuid, h]
      have hg : guardCond uuid Status.discovered r = true := by
        simp [guardCond, hruuid, hst]
      simp [hg, setDownloaded]
    · intro uuid2 hne
      rw [findRow_map hpres uuid2]
      cases h2 : findRow s uuid2 with
      | none => rfl
      | some r2 =>
        obtain ⟨_, hr2uuid⟩ := findRow_some h2
        have hg2 : guardCond uuid Status.discovered r2 = false := by
          simp only [guardCond, decide_eq_false_iff_not, not_and]
          intro hu; exact absurd (hr2uuid.symm.trans hu) hne
        simp [hg2]
  · exact mark_downloaded_of_absent now1 now2 f
  · exact fun r h hst => mark_downloaded_of_wrong now1 now2 f hwf h hst

/-- Concrete witness for `C1_mark_downloaded_guarded`: a store holding one
`discovered` document accepts the transition. -/
theorem C1_mark_downloaded_guarded_witness :
    (mark_document_downloaded "2025-01-02T00:00:00" "2025-01-02T00:00:00"
      [mkRow "u1" Status.discovered] "u1" "a.pdf").2 = none := by
  have h := C1_mark_downloaded_guarded "2025-01-02T00:00:00" "2025-01-02T00:00:00"
    [mkRow "u1" Status.discovered] "u1" "a.pdf" (by simp [StoreWF])
  exact h.1.mpr ⟨mkRow "u1" Status.discovered, by rfl, by rfl⟩

/-- C9: the unconditional `mark_document_failed` on an id that is not in the
store succeeds without raising and without modifying any row: the UPDATE
matches nothing, no rowcount check or re-read exists, so the call is a silent
no-op with no NotFound. -/
theorem C9_mark_failed_missing_id_noop (now : String) (s : Store) (uuid msg : String)
    (h : findRow s uuid = none) :
    mark_document_failed now s uuid msg = (s, none) := by
  have hm : s.map (fun r => if rowMatches uuid r then setFailed now msg r else r) = s := by
    refine map_eq_self_of s _ (fun r hr => ?_)
    have := findRow_eq_none.mp h r hr
    simp [rowMatches, this]
  simp [mark_document_failed, getConn, hm]

/-- Concrete witness for `C9_mark_failed_missing_id_noop`: recording a failure
against a never-registered id leaves the one-row store untouched. -/
theorem C9_mark_failed_missing_id_noop_witness :
    mark_document_failed "2025-01-02T00:00:00" [mkRow "u1" Status.discovered]
      "ghost" "boom" = ([mkRow "u1" Status.discovered], none) :=
  C9_mark_failed_missing_id_noop "2025-01-02T00:00:00" [mkRow "u1" Status.discovered]
    "ghost" "boom" (by rfl)

/-- The `get_conn` wrapper rolls the transaction back on any exception: an
erroring call leaves the visible store exactly as it was. -/
theorem getConn_error_fst (s : Store) (b : Store → Store × Option PyExc)
    (h : (getConn s b).2 ≠ none) : (getConn s b).1 = s := by
  rcases hb : b s with ⟨s2, e⟩
  cases e with
  | none => rw [getConn, hb] at h; simp at h
  | some e => rw [getConn, hb]

/-- C10: whenever `mark_document_downloaded` or `mark_document_parsed` fails
(NotFound or InvalidTransition), the store is completely unchanged — the
connection wrapper rolls the transaction back, so no column of any row,
`updated_at` included, is modified by a failed transition call. -/
theorem C10_failed_transition_rolls_back (now1 now2 : String) (s : Store)
    (uuid f g : String) :
    ((mark_document_downloaded now1 now2 s uuid f).2 ≠ none →
       (mark_document_downloaded now1 now2 s uuid f).1 = s)
    ∧ ((mark_document_parsed now1 now2 s uuid g).2 ≠ none →
       (mark_document_parsed now1 now2 s uuid g).1 = s) :=
  ⟨fun h => getConn_error_fst s _ h, fun h => getConn_error_fst s _ h⟩

/-- Concrete witness for `C10_failed_transition_rolls_back`: both guarded
transitions fail on a `parsed` row and leave the store as it was. -/
theorem C10_failed_transition_rolls_back_witness :
    (mark_document_downloaded "2025-01-02T00:00:00" "2025-01-02T00:00:00"
      [mkRow "u1" Status.parsed] "u1" "a.pdf").1 = [mkRow "u1" Status.parsed]
    ∧ (mark_document_parsed "2025-01-02T00:00:00" "2025-01-02T00:00:00"
      [mkRow "u1" Status.parsed] "u1" "a.txt").1 = [mkRow "u1" Status.parsed] := by
  have h := C10_failed_transition_rolls_back "2025-01-02T00:00:00" "2025-01-02T00:00:00"
    [mkRow "u1" Status.parsed] "u1" "a.pdf" "a.txt"
  exact ⟨h.1 (by decide), h.2 (by decide)⟩

/-! ### The per-document state machine (claim C3) -/

/-- Stores reachable from the empty table through any sequence of
registrations and transition calls, failed calls included (a failed call
leaves the store unchanged via rollback, so its result is still the visible
store). -/
inductive Reachable : Store → Prop where
  | nil : Reachable []
  | insert (s : Store) (now1 now2 : String) (doc : PyDict) :
      Reachable s → Reachable (insert_document now1 now2 s doc).1
  | download (s : Store) (now1 now2 uuid f : String) :
      Reachable s → Reachable (mark_document_downloaded now1 now2 s uuid f).1
  | parse (s : Store) (now1 now2 uuid f : String) :
      Reachable s → Reachable (mark_document_parsed now1 now2 s uuid f).1
  | fail (s : Store) (now uuid msg : String) :
      Reachable s → Reachable (mark_document_failed now s uuid msg).1

/-- The rowwise invariant the operations actually maintain: the file-name
columns track the status for live rows, while a `failed` row keeps whatever
file names it had when it failed. -/
def rowInv (r : Row) : Prop :=
  match r.processing_status with
  | Status.discovered => r.pdf_file_name = none ∧ r.text_file_name = none
  | Status.downloaded => r.pdf_file_name ≠ none ∧ r.text_file_name = none
  | Status.parsed => r.pdf_file_name ≠ none ∧ r.text_file_name ≠ none
  | Status.failed => True

theorem buildInsertRow_ok {now1 now2 : String} {doc : PyDict} {r : Row}
    (h : buildInsertRow now1 now2 doc = Except.ok r) :
    r.processing_status = Status.discovered ∧ r.pdf_file_name = none ∧
    r.text_file_name = none := by
  unfold buildInsertRow at h
  cases h1 : dictGet doc "uuid" <;> rw [h1] at h <;> simp only [Except.bind, bind] at h
  case error => exact absurd h (by simp)
  cases h2 : dictGet doc "company_name" <;> rw [h2] at h <;> simp only [Except.bind] at h
  case error => exact absurd h (by simp)
  cases h3 : dictGet doc "script_code" <;> rw [h3] at h <;> simp only [Except.bind] at h
  case error => exact absurd h (by simp)
  cases h4 : dictGet doc "pdf_url" <;> rw [h4] at h <;> simp only [Except.bind] at h
  case error => exact absurd h (by simp)
  cases h5 : dictGet doc "pdf_url_sha256" <;> rw [h5] at h <;> simp only [Except.bind] at h
  case error => exact absurd h (by simp)
  cases h6 : dictGet doc "json_text" <;> rw [h6] at h <;> simp only [Except.bind] at h
  case error => exact absurd h (by simp)
  cases h7 : dictGet doc "announcement_date" <;> rw [h7] at h <;>
    simp only [Except.bind] at h
  case error => exact absurd h (by simp)
  cases h
  exact ⟨rfl, rfl, rfl⟩

theorem insert_fst_cases (now1 now2 : String) (s : Store) (doc : PyDict) :
    (insert_document now1 now2 s doc).1 = s ∨
    ∃ r, buildInsertRow now1 now2 doc = Except.ok r ∧
      (insert_document now1 now2 s doc).1 = s ++ [r] := by
  cases hb : buildInsertRow now1 now2 doc with
  | error e => left; simp [insert_document, getConn, hb]
  | ok r =>
    by_cases hv : violatesUnique s r
    · left; simp [insert_document, getConn, hb, hv]
    · right; exact ⟨r, rfl, by simp [insert_document, getConn, hb, hv]⟩

theorem mark_downloaded_of_countP_zero {s : Store} {uuid : String} (now1 now2 f : String)
    (hc : s.countP (guardCond uuid Status.discovered) = 0) :
    (mark_document_downloaded now1 now2 s uuid f).1 = s := by
  cases h : findRow s uuid <;> simp [mark_document_downloaded, getConn, hc, h]

theorem mark_downloaded_of_countP_ne_zero {s : Store} {uuid : String}
    (now1 now2 f : String) (hc : s.countP (guardCond uuid Status.discovered) ≠ 0) :
    mark_document_downloaded now1 now2 s uuid f =
      (s.map (fun r =>
        if guardCond uuid Status.discovered r then setDownloaded now1 now2 f r else r),
       none) := by
  simp [mark_document_downloaded, getConn, hc]

theorem mark_parsed_of_countP_zero {s : Store} {uuid : String} (now1 now2 f : String)
    (hc : s.countP (guardCond uuid Status.downloaded) = 0) :
    (mark_document_parsed now1 now2 s uuid f).1 = s := by
  cases h : findRow s uuid <;> simp [mark_document_parsed, getConn, hc, h]

theorem mark_parsed_of_countP_ne_zero {s : Store} {uuid : String}
    (now1 now2 f : String) (hc : s.countP (guardCond uuid Status.downloaded) ≠ 0) :
    mark_document_parsed now1 now2 s uuid f =
      (s.map (fun r =>
        if guardCond uuid Status.downloaded r then setParsed now1 now2 f r else r),
       none) := by
  simp [mark_document_parsed, getConn, hc]

theorem mark_failed_eval (now : String) (s : Store) (uuid msg : String) :
    mark_document_failed now s uuid msg =
      (s.map (fun r => if rowMatches uuid r then setFailed now msg r else r), none) := by
  simp [mark_document_failed, getConn]

/-- Every row of every reachable store satisfies `rowInv`. -/
theorem reachable_rowInv {s : Store} (h : Reachable s) : ∀ r ∈ s, rowInv r := by
  induction h with
  | nil => intro r hr; simp at hr
  | insert s0 now1 now2 doc _ ih =>
    intro r' hr'
    rcases insert_fst_cases now1 now2 s0 doc with hcase | ⟨rnew, hb, hcase⟩
    · rw [hcase] at hr'; exact ih r' hr'
    · rw [hcase] at hr'
      rcases List.mem_append.mp hr' with hmem | hmem
      · exact ih r' hmem
      · have hr'eq : r' = rnew := by simpa using hmem
        obtain ⟨h1, h2, h3⟩ := buildInsertRow_ok hb
        subst hr'eq
        simp [rowInv, h1, h2, h3]
  | download s0 now1 now2 uuid f _ ih =>
    intro r' hr'
    by_cases hc : s0.countP (guardCond uuid Status.discovered) = 0
    · rw [mark_downloaded_of_countP_zero now1 now2 f hc] at hr'; exact ih r' hr'
    · rw [mark_downloaded_of_countP_ne_zero now1 now2 f hc] at hr'
      obtain ⟨r, hrmem, hrEq⟩ := List.mem_map.mp hr'
      have hinv := ih r hrmem
      by_cases hg : guardCond uuid Status.discovered r
      · have hgd : r.processing_status = Status.discovered := by
          simpa [guardCond] using (of_decide_eq_true hg).2
        rw [← hrEq]
        unfold rowInv at hinv
        rw [hgd] at hinv
        simp [hg, setDownloaded, rowInv, hinv.2]
      · rw [← hrEq]; simp only [hg, if_false, Bool.false_eq_true]; exact hinv
  | parse s0 now1 now2 uuid f _ ih =>
    intro r' hr'
    by_cases hc : s0.countP (guardCond uuid Status.downloaded) = 0
    · rw [mark_parsed_of_countP_zero now1 now2 f hc] at hr'; exact ih r' hr'
    · rw [mark_parsed_of_countP_ne_zero now1 now2 f hc] at hr'
      obtain ⟨r, hrmem, hrEq⟩ := List.mem_map.mp hr'
      have hinv := ih r hrmem
      by_cases hg : guardCond uuid Status.downloaded r
      · have hgd : r.processing_status = Status.downloaded := by
          simpa [guardCond] using (of_decide_eq_true hg).2
        rw [← hrEq]
        unfold rowInv at hinv
        rw [hgd] at hinv
        simp [hg, setParsed, rowInv, hinv.1]
      · rw [← hrEq]; simp only [hg, if_false, Bool.false_eq_true]; exact hinv
  | fail s0 now uuid msg _ ih =>
    intro r' hr'
    rw [mark_failed_eval] at hr'
    obtain ⟨r, hrmem, hrEq⟩ := List.mem_map.mp hr'
    have hinv := ih r hrmem
    by_cases hg : rowMatches uuid r
    · rw [← hrEq]; simp [hg, setFailed, rowInv]
    · rw [← hrEq]; simp only [hg, if_false, Bool.false_eq_true]; exact hinv

/-- C3 (amended): over every store reachable through insertion and the three
transition operations, the file-name/status correspondence holds for every
row that is not `failed`: `pdf_file_name` is non-null iff the status is
`downloaded` or `parsed`, and `text_file_name` is non-null iff the status is
`parsed`.  A `failed` row retains whatever file names were set before the
failure, so the correspondence cannot be stated for it. -/
theorem C3_amended_filename_iff (s : Store) (hs : Reachable s) :
    ∀ r ∈ s, r.processing_status ≠ Status.failed →
      ((r.pdf_file_name ≠ none ↔
         (r.processing_status = Status.downloaded ∨
          r.processing_status = Status.parsed))
       ∧ (r.text_file_name ≠ none ↔ r.processing_status = Status.parsed)) := by
  intro r hr hnf
  have hinv := reachable_rowInv hs r hr
  unfold rowInv at hinv
  cases hst : r.processing_status with
  | discovered => rw [hst] at hinv; simp [hst, hinv.1, hinv.2]
  | downloaded => rw [hst] at hinv; simp [hst, hinv.1, hinv.2]
  | parsed => rw [hst] at hinv; simp [hst, hinv.1, hinv.2]
  | failed => exact absurd hst hnf

/-- A registration dict with all the keys `insert_document` reads. -/
def C3doc : PyDict :=
  [("uuid", "u1"), ("company_name", "ACME Ltd"), ("script_code", "500325"),
   ("pdf_url", "https://x/doc.pdf"), ("pdf_url_sha256", "h1"),
   ("json_text", "jsontext"), ("announcement_date", "2025-01-01T00:00:00")]

def C3s1 : Store := (insert_document "T1" "T1" [] C3doc).1

def C3s2 : Store := (mark_document_downloaded "T2" "T2" C3s1 "u1" "a.pdf").1

def C3s3 : Store := (mark_document_parsed "T3" "T3" C3s2 "u1" "a.txt").1

def C3s4 : Store := (mark_document_failed "T4" C3s3 "u1" "boom").1

/-- The row as it stands after insert, download, parse, then an unconditional
fail. -/
def C3row : Row :=
  { transcript_uuid := "u1", company_name := "ACME Ltd", script_code := "500325",
    pdf_url := "https://x/doc.pdf", pdf_url_sha256 := "h1", json_text := "jsontext",
    created_at := "T1", announcement_date := "2025-01-01T00:00:00",
    updated_at := "T4", processing_status := Status.failed,
    pdf_file_name := some "a.pdf", pdf_created_at := some "T2",
    text_file_name := some "a.txt", text_file_created_at := some "T3",
    error_message := some "boom" }

/-- C3 counterexample: a reachable store (insert, download, parse, then
`mark_failed`, which is callable from any status) contains a row whose
`text_file_name` is non-null while its status is `failed`, not `parsed` —
so the biconditional of the claim fails on reachable states. -/
theorem C3_counterexample_failed_keeps_text :
    Reachable C3s4 ∧ C3row ∈ C3s4 ∧ C3row.text_file_name = some "a.txt"
    ∧ C3row.processing_status = Status.failed := by
  refine ⟨?_, by decide, rfl, rfl⟩
  exact Reachable.fail _ "T4" "u1" "boom"
    (Reachable.parse _ "T3" "T3" "u1" "a.txt"
      (Reachable.download _ "T2" "T2" "u1" "a.pdf"
        (Reachable.insert _ "T1" "T1" C3doc Reachable.nil)))

/-- The row as it stands in the reachable store `C3s2` (after download). -/
def C3rowD : Row :=
  { transcript_uuid := "u1", company_name := "ACME Ltd", script_code := "500325",
    pdf_url := "https://x/doc.pdf", pdf_url_sha256 := "h1", json_text := "jsontext",
    created_at := "T1", announcement_date := "2025-01-01T00:00:00",
    updated_at := "T2", processing_status := Status.downloaded,
    pdf_file_name := some "a.pdf", pdf_created_at := some "T2",
    text_file_name := none, text_file_created_at := none, error_message := none }

/-- Concrete witness for `C3_amended_filename_iff`, applied to the reachable
store after insert and download. -/
theorem C3_amended_filename_iff_witness :
    (C3rowD.pdf_file_name ≠ none ↔
      (C3rowD.processing_status = Status.downloaded ∨
       C3rowD.processing_status = Status.parsed))
    ∧ (C3rowD.text_file_name ≠ none ↔ C3rowD.processing_status = Status.parsed) := by
  have h := C3_amended_filename_iff C3s2
    (Reachable.download _ "T2" "T2" "u1" "a.pdf"
      (Reachable.insert _ "T1" "T1" C3doc Reachable.nil))
  exact h C3rowD (by decide) (by decide)

/-! ### Registration (claim C2) -/

/-- A concrete registrar environment: the announcement is treated as older
than the 60-day threshold, the hash oracle is injective on the one URL used,
and fresh ids are numbered. -/
def C2env : RegistrarEnv :=
  { isOld := fun _ => true, sha256hex := fun u => u,
    freshUuid := fun i => "id-" ++ toString i }

/-- A well-formed discovered transcript item. -/
def C2transcript : Ann :=
  { NEWSSUB := "Q3 Earnings Call Transcript", ATTACHMENTNAME := "t1.pdf",
    SLONGNAME := "ACME Ltd", SCRIP_CD := "500325",
    NEWS_DT := "2025-01-29T10:00:00.000" }

/-- C2: registering a single well-formed item into an empty store does not
return one id — it raises `KeyError('uuid')`.  The `dbstate` dict built by
`transcripts_to_dbstate` carries the key "transcript_uuid" and no "json_text",
while `insert_document` reads `doc["uuid"]` (and later `doc["json_text"]`);
the resulting `KeyError` is not an `sqlite3.IntegrityError`, so the
registration loop does not catch it and it propagates to the caller before
any row is stored. -/
theorem C2_registration_raises_keyError :
    transcripts_to_dbstate C2env "T1" "T1" [] 0 [C2transcript] =
      ([], Except.error (PyExc.keyError "uuid")) := by rfl

/-! ### Discovery fault isolation (claim C4) -/

/-- A page-1 envelope announcing two total rows at page size one, so discovery
proceeds to fetch page 2. -/
def C4ann : Ann :=
  { NEWSSUB := "Acme Earnings Call Transcript", ATTACHMENTNAME := "a.pdf",
    SLONGNAME := "Acme", SCRIP_CD := "1", NEWS_DT := "2025-01-29T10:00:00.000" }

/-- Feed behaviour: page 1 succeeds, page 2 fails with a transport error
(e.g. `aiohttp.ClientResponseError` from `raise_for_status` on HTTP 500). -/
def C4fetches : Nat → FetchOutcome := fun p =>
  if p = 1 then FetchOutcome.ok { table := [C4ann], rowcnt := 2 }
  else FetchOutcome.raise (PyExc.clientError "500 Internal Server Error")

/-- C4: with page 1 healthy and page 2 failing with a transport error, the
whole discovery call raises `TypeError` instead of returning page 1's items
with an empty contribution for page 2: the handler chain of
`fetch_and_filter` reaches `except aiohttp.ClientTimeout`, a class that is
not an exception type, so CPython raises TypeError while matching handlers
and the catch-all `except Exception` clause is never consulted.  (Timeouts
are still isolated: they match the first clause.) -/
theorem C4_transport_error_aborts_discovery :
    create_transcript_list C4fetches =
      Except.error (PyExc.typeError badExceptClauseMsg) := by rfl

/-! ### Total page count (claim C5) -/

/-- A feed whose page 1 envelope has an empty results array. -/
def C5fetches : Nat → FetchOutcome :=
  fun _ => FetchOutcome.ok { table := [], rowcnt := 0 }

/-- C5 counterexample: on a page-1 envelope with an empty results array
(page size 0), the total-page computation is not defined — the division
`total_rows / page_size` raises ZeroDivisionError and the discovery call
errors — contradicting the claim that the computation is defined for every
page-1 envelope including the empty one. -/
theorem C5_counterexample_empty_page1 :
    create_transcript_list C5fetches = Except.error PyExc.zeroDivisionError := by rfl

/-- C5 (amended): for every page-1 envelope whose results array is non-empty
(page size at least 1), discovery computes
`total_pages = ceil(total_rows / page_size)` floored at 1, without error;
an empty results array instead raises ZeroDivisionError. -/
theorem C5_total_pages_is_ceil (total_rows page_size : Nat) (h : 1 ≤ page_size) :
    compute_total_pages total_rows page_size =
      Except.ok (max 1 (total_rows ⌈/⌉ page_size)) := by
  have hne : page_size ≠ 0 := by omega
  rw [Nat.ceilDiv_eq_add_pred_div]
  simp [compute_total_pages, hne]

/-- Concrete witness for `C5_total_pages_is_ceil`: three rows at page size
one give three pages. -/
theorem C5_total_pages_is_ceil_witness :
    compute_total_pages 3 1 = Except.ok (max 1 (3 ⌈/⌉ 1)) ∧
    compute_total_pages 3 1 = Except.ok 3 :=
  ⟨C5_total_pages_is_ceil 3 1 (by decide), by rfl⟩

/-! ### Discovery ordering (claim C8) -/

/-- The items a page is expected to contribute to the discovery output: its
filtered announcements when the fetch succeeded, nothing when it failed. -/
def page_contribution (fetches : Nat → FetchOutcome) (p : Nat) : List Ann :=
  match fetches p with
  | FetchOutcome.ok env => filter_transcripts_from_json env.table
  | FetchOutcome.raise _ => []

theorem gather_ok_map {fetches : Nat → FetchOutcome} :
    ∀ (ps : List Nat) (ls : List (List Ann)),
      gatherExcept (ps.map (fetch_and_filter fetches)) = Except.ok ls →
      ls = ps.map (page_contribution fetches) := by
  intro ps
  induction ps with
  | nil =>
    intro ls h
    simp only [List.map_nil, gatherExcept] at h
    cases h
    rfl
  | cons p ps ih =>
    intro ls h
    simp only [List.map_cons] at h
    cases hf : fetch_and_filter fetches p with
    | error e => rw [hf] at h; simp [gatherExcept] at h
    | ok v =>
      rw [hf] at h
      cases hg : gatherExcept (ps.map (fetch_and_filter fetches)) with
      | error e => rw [gatherExcept, hg] at h; cases h
      | ok vs =>
        rw [gatherExcept, hg] at h
        cases h
        have hv : v = page_contribution fetches p := by
          cases ho : fetches p with
          | ok env =>
            rw [fetch_and_filter, ho] at hf
            cases hf
            rw [page_contribution, ho]
          | raise e =>
            rw [fetch_and_filter, ho] at hf
            cases e <;> simp_all [page_contribution]
        rw [List.map_cons, hv, ih vs hg]

/-- C8: whenever discovery returns a list, that list is exactly the
concatenation, in ascending page order `1, 2, ..., total_pages`, of each
page's contribution — the page's filtered items in their own order when the
fetch succeeded, nothing at that position when it failed — with no
gap-filling and no retry. -/
theorem C8_page_order_preserved (fetches : Nat → FetchOutcome) (l : List Ann)
    (h : create_transcript_list fetches = Except.ok l) :
    ∃ env1 total_pages,
      fetches 1 = FetchOutcome.ok env1 ∧
      compute_total_pages env1.rowcnt env1.table.length = Except.ok total_pages ∧
      1 ≤ total_pages ∧
      l = ((List.range' 1 total_pages).map (page_contribution fetches)).flatten := by
  cases h1 : fetches 1 with
  | raise e => simp [create_transcript_list, h1] at h
  | ok env1 =>
    refine ⟨env1, ?_⟩
    simp only [create_transcript_list, h1] at h
    split at h
    case h_1 e h2 => cases h
    case h_2 tp h2 =>
      have htp1 : 1 ≤ tp := by
        unfold compute_total_pages at h2
        split at h2
        · cases h2
        · cases h2; exact le_max_left 1 _
      refine ⟨tp, rfl, h2, htp1, ?_⟩
      have hrange : List.range' 1 tp = 1 :: List.range' 2 (tp - 1) := by
        cases tp with
        | zero => omega
        | succ n => simp [List.range']
      by_cases hgt : tp > 1
      · rw [if_pos hgt] at h
        split at h
        next e hg => cases h
        next ls hg =>
          cases h
          rw [gather_ok_map (List.range' 2 (tp - 1)) ls hg, hrange]
          simp [page_contribution, h1]
      · rw [if_neg hgt] at h
        cases h
        have htp : tp = 1 := by omega
        subst htp
        simp [List.range', page_contribution, h1]

/-- Feed behaviour for the C8 witness: three pages, page 2 times out. -/
def C8annC : Ann :=
  { NEWSSUB := "Bright Co Earnings Call Transcript", ATTACHMENTNAME := "c.pdf",
    SLONGNAME := "Bright Co", SCRIP_CD := "3", NEWS_DT := "2025-01-29T12:00:00.000" }

def C8fetches : Nat → FetchOutcome := fun p =>
  if p = 1 then FetchOutcome.ok { table := [C4ann], rowcnt := 3 }
  else if p = 2 then FetchOutcome.raise PyExc.timeoutError
  else FetchOutcome.ok { table := [C8annC], rowcnt := 3 }

/-- Concrete witness for `C8_page_order_preserved`: with page 2 timing out,
discovery returns page 1's item followed by page 3's item, and the theorem
instantiates on that run. -/
theorem C8_page_order_preserved_witness :
    ∃ env1 total_pages,
      C8fetches 1 = FetchOutcome.ok env1 ∧
      compute_total_pages env1.rowcnt env1.table.length = Except.ok total_pages ∧
      1 ≤ total_pages ∧
      [C4ann, C8annC] =
        ((List.range' 1 total_pages).map (page_contribution C8fetches)).flatten :=
  C8_page_order_preserved C8fetches [C4ann, C8annC] (by rfl)

/-! ### Atomicity of the converted text file (claim C6) -/

theorem fsGet_fsSet (fs : FS) (n c m : String) :
    fsGet (fsSet fs n c) m = if m = n then some c else fsGet fs m := by
  induction fs with
  | nil =>
    by_cases h : m = n
    · subst h; simp [fsGet, fsSet]
    · simp [fsGet, fsSet, h, Ne.symm h]
  | cons hd tl ih =>
    obtain ⟨k, v⟩ := hd
    by_cases hk : k = n
    · subst hk
      by_cases hm : k = m
      · subst hm; simp [fsGet, fsSet]
      · simp [fsGet, fsSet, hm, Ne.symm hm]
    · by_cases hm : k = m
      · subst hm
        simp [fsGet, fsSet, hk, Ne.symm hk]
      · simpa [fsGet, fsSet, hk, hm] using ih

theorem fsGet_fsDel (fs : FS) (n m : String) :
    fsGet (fsDel fs n) m = if m = n then none else fsGet fs m := by
  induction fs with
  | nil => simp [fsGet, fsDel]
  | cons hd tl ih =>
    obtain ⟨k, v⟩ := hd
    by_cases hk : k = n
    · subst hk
      by_cases hm : m = k
      · subst hm; simpa [fsDel] using ih
      · simpa [fsGet, fsDel, hm, Ne.symm hm] using ih
    · by_cases hm : k = m
      · subst hm
        simp [fsGet, fsDel, hk, Ne.symm hk]
      · simpa [fsGet, fsDel, hk, hm] using ih

theorem getLast_of_cons {α : Type} (l : List α) (y : α) :
    ∃ a, (y :: l).getLast? = some a := by
  induction l generalizing y with
  | nil => exact ⟨y, rfl⟩
  | cons z l ih => rw [List.getLast?_cons_cons]; exact ih z

theorem getLastD_cons {α : Type} (x d : α) (l : List α) :
    (x :: l).getLast?.getD d = l.getLast?.getD x := by
  cases l with
  | nil => rfl
  | cons y l =>
    rw [List.getLast?_cons_cons]
    obtain ⟨a, ha⟩ := getLast_of_cons l y
    rw [ha]; rfl

/-- The staging name and the final name never collide: they differ in
length. -/
theorem temp_ne_text (u : String) : tempTextFileName u ≠ textFileName u := by
  intro h
  have hlen : (tempTextFileName u).data.length = (textFileName u).data.length := by
    rw [h]
  rw [tempTextFileName, textFileName] at hlen
  rw [String.data_append, String.data_append, String.data_append] at hlen
  rw [List.length_append, List.length_append, List.length_append] at hlen
  have h1 : ("temp_".data).length = 5 := rfl
  have h2 : (".txt".data).length = 4 := rfl
  rw [h1, h2] at hlen
  omega

/-- During the page-writing loop, the final text file never appears, and when
the loop finishes the staging file holds the accumulated content plus every
remaining chunk. -/
theorem write_states_final (temp final : String) (hne : temp ≠ final) :
    ∀ (ps : List PageOutcome) (i : Nat) (fs : FS) (acc : String),
      fsGet fs temp = some acc → fsGet fs final = none →
      (∀ fs2 ∈ write_states temp fs acc i ps, fsGet fs2 final = none) ∧
      fsGet ((write_states temp fs acc i ps).getLast?.getD fs) temp =
        some (acc ++ finalText i ps) := by
  intro ps
  induction ps with
  | nil =>
    intro i fs acc ht hf
    refine ⟨fun fs2 h2 => by simp [write_states] at h2, ?_⟩
    simp [write_states, finalText, String.append_empty, ht]
  | cons p ps ih =>
    intro i fs acc ht hf
    cases hc : pageChunk i p with
    | none =>
      have hrec := ih (i + 1) fs acc ht hf
      refine ⟨fun fs2 h2 => ?_, ?_⟩
      · rw [write_states, hc] at h2; exact hrec.1 fs2 h2
      · rw [write_states, hc, finalText, hc]
        simpa [String.empty_append] using hrec.2
    | some chunk =>
      have ht2 : fsGet (fsSet fs temp (acc ++ chunk)) temp = some (acc ++ chunk) := by
        simp [fsGet_fsSet]
      have hf2 : fsGet (fsSet fs temp (acc ++ chunk)) final = none := by
        rw [fsGet_fsSet, if_neg (Ne.symm hne)]; exact hf
      have hrec := ih (i + 1) (fsSet fs temp (acc ++ chunk)) (acc ++ chunk) ht2 hf2
      refine ⟨fun fs2 h2 => ?_, ?_⟩
      · rw [write_states, hc] at h2
        rcases List.mem_cons.mp h2 with rfl | h2
        · exact hf2
        · exact hrec.1 fs2 h2
      · rw [write_states, hc, finalText, hc, getLastD_cons]
        have hstr : acc ++ ((some chunk).getD "" ++ finalText (i + 1) ps) =
            (acc ++ chunk) ++ finalText (i + 1) ps := by
          rw [String.append_assoc]; rfl
        rw [hstr]
        exact hrec.2

/-- C6 (amended): page text is written only to the distinctly prefixed
staging file `temp_<id>.txt`, which is renamed into place within the same
directory once fully written, so no observable state of the text directory
ever shows the final text file `<id>.txt` with content different from the
complete converted content, and the state after the rename shows it with
exactly that content.  (The staging file itself is visible in the text
directory while being written — see the counterexample — so the claim's
"no partially written file is ever visible" holds only for the final
name.) -/
theorem C6_amended_final_file_atomic (fs0 : FS) (u : String) (pages : List PageOutcome)
    (h0 : fsGet fs0 (textFileName u) = none) :
    (∀ fs ∈ conversion_trace fs0 u pages, ∀ c,
       fsGet fs (textFileName u) = some c → c = finalText 0 pages) ∧
    (∀ fsLast, (conversion_trace fs0 u pages).getLast? = some fsLast →
       fsGet fsLast (textFileName u) = some (finalText 0 pages)) := by
  have hne := temp_ne_text u
  have hfs1t : fsGet (fsSet fs0 (tempTextFileName u) "") (tempTextFileName u) =
      some "" := by simp [fsGet_fsSet]
  have hfs1f : fsGet (fsSet fs0 (tempTextFileName u) "") (textFileName u) = none := by
    rw [fsGet_fsSet, if_neg (Ne.symm hne)]; exact h0
  have hws := write_states_final (tempTextFileName u) (textFileName u) hne pages 0
    (fsSet fs0 (tempTextFileName u) "") "" hfs1t hfs1f
  have hlastTemp :
      fsGet ((write_states (tempTextFileName u) (fsSet fs0 (tempTextFileName u) "") "" 0
        pages).getLast?.getD (fsSet fs0 (tempTextFileName u) "")) (tempTextFileName u) =
      some (finalText 0 pages) := by
    simpa [String.empty_append] using hws.2
  have hrename :
      fsGet (osReplace
        ((write_states (tempTextFileName u) (fsSet fs0 (tempTextFileName u) "") "" 0
          pages).getLast?.getD (fsSet fs0 (tempTextFileName u) ""))
        (tempTextFileName u) (textFileName u)) (textFileName u) =
      some (finalText 0 pages) := by
    rw [osReplace, hlastTemp, fsGet_fsSet, if_pos rfl]
  constructor
  · intro fs hmem c hc
    rw [conversion_trace] at hmem
    rcases List.mem_cons.mp hmem with rfl | hmem
    · rw [h0] at hc; cases hc
    · rcases List.mem_cons.mp hmem with rfl | hmem
      · rw [hfs1f] at hc; cases hc
      · rcases List.mem_append.mp hmem with hmem | hmem
        · rw [hws.1 fs hmem] at hc; cases hc
        · have hfs : fs = osReplace
              ((write_states (tempTextFileName u) (fsSet fs0 (tempTextFileName u) "") "" 0
                pages).getLast?.getD (fsSet fs0 (tempTextFileName u) ""))
              (tempTextFileName u) (textFileName u) := by simpa using hmem
          subst hfs
          rw [hrename] at hc
          cases hc
          rfl
  · intro fsLast hlast
    rw [conversion_trace] at hlast
    rw [show ∀ (a b : FS) (l1 l2 : List FS), a :: b :: l1 ++ l2 = (a :: b :: l1) ++ l2
      from fun a b l1 l2 => rfl] at hlast
    rw [List.getLast?_concat] at hlast
    cases hlast
    exact hrename

/-- Two pages of extracted text for the concrete trace. -/
def pagesC6 : List PageOutcome :=
  [PageOutcome.text (some "alpha"), PageOutcome.text (some "beta")]

/-- The content of the staging file after the first page has been written. -/
def C6midChunk : String := "\n--- Page 1 ---\nalpha"

/-- The observable directory state in the middle of the conversion. -/
def C6mid : FS := [(tempTextFileName "u1", C6midChunk)]

/-- C6 counterexample: midway through a conversion, the text directory
contains a file — the staging file `temp_u1.txt`, created in the same
directory — whose content is strictly shorter than the final converted
content, so a consumer polling the text directory can observe a partially
written file, contradicting the claim that none is ever visible. -/
theorem C6_counterexample_partial_staging_visible :
    C6mid ∈ conversion_trace [] "u1" pagesC6 ∧
    fsGet C6mid (tempTextFileName "u1") = some C6midChunk ∧
    C6midChunk.length < (finalText 0 pagesC6).length := by
  exact ⟨by decide, rfl, by decide⟩

/-- Concrete witness for `C6_amended_final_file_atomic`: after the two-page
conversion the final text file holds the full converted content. -/
theorem C6_amended_final_file_atomic_witness :
    fsGet ((conversion_trace [] "u1" pagesC6).getLast?.getD []) (textFileName "u1") =
      some (finalText 0 pagesC6) := by
  have h := C6_amended_final_file_atomic [] "u1" pagesC6 (by rfl)
  exact h.2 _ (by rfl)

/-! ### Conversion orchestrator (claim C7) -/

/-- C7 (amended): `convert_pdfs` selects exactly the documents currently in
`downloaded` status, sizes its worker pool as min(configured worker count,
number of pending documents), runs the per-document conversion on every
selected document and aggregates all the boolean results into
(success count, failure count) — the counts cover every document, so a
failure does not stop the run — but it prints those counts and returns
`None`; it does not return the pair. -/
theorem C7_amended_convert_pdfs (conv : String → Bool) (s : Store) :
    (convert_pdfs conv s).2 = none
    ∧ (∀ u, u ∈ get_downloaded_documents s ↔
        ∃ r, r ∈ s ∧ r.transcript_uuid = u ∧ r.processing_status = Status.downloaded)
    ∧ convert_pool_size s =
        min MAX_CONCURRENT_CONVERSION_WORKERS (get_downloaded_documents s).length
    ∧ (get_downloaded_documents s ≠ [] →
        (convert_pdfs conv s).1 =
          some (((get_downloaded_documents s).map conv).countP (fun b => b),
                ((get_downloaded_documents s).map conv).length -
                  ((get_downloaded_documents s).map conv).countP (fun b => b))
        ∧ ((get_downloaded_documents s).map conv).countP (fun b => b) +
            (((get_downloaded_documents s).map conv).length -
              ((get_downloaded_documents s).map conv).countP (fun b => b)) =
            (get_downloaded_documents s).length) := by
  refine ⟨?_, ?_, rfl, ?_⟩
  · by_cases hd : (get_downloaded_documents s).isEmpty <;> simp [convert_pdfs, hd]
  · intro u
    simp only [get_downloaded_documents, List.mem_map, List.mem_filter,
      decide_eq_true_eq]
    constructor
    · rintro ⟨r, ⟨hr, hst⟩, huuid⟩; exact ⟨r, hr, huuid, hst⟩
    · rintro ⟨r, hr, huuid, hst⟩; exact ⟨r, ⟨hr, hst⟩, huuid⟩
  · intro hne
    have hd : (get_downloaded_documents s).isEmpty = false := by
      cases hd : (get_downloaded_documents s).isEmpty
      · rfl
      · exact absurd (List.isEmpty_iff.mp hd) hne
    have hle : ((get_downloaded_documents s).map conv).countP (fun b => b) ≤
        ((get_downloaded_documents s).map conv).length :=
      List.countP_le_length (fun b => b)
    refine ⟨by simp [convert_pdfs, hd], ?_⟩
    rw [List.length_map] at hle ⊢
    omega

/-- The per-document conversion outcome used in the concrete witness and
counterexample: document u1 converts, document u2 fails. -/
def convC7 : String → Bool := fun u => decide (u = "u1")

def C7store : Store := [mkRow "u1" Status.downloaded, mkRow "u2" Status.downloaded]

/-- C7 counterexample: on a store with two downloaded documents, one
converting and one failing, `convert_pdfs` computes (and prints) the counts
(1, 1) but returns None — not the pair (success_count, failure_count) the
claim says it returns. -/
theorem C7_counterexample_returns_none :
    (convert_pdfs convC7 C7store).2 = none ∧
    (convert_pdfs convC7 C7store).2 ≠ some (1, 1) ∧
    (convert_pdfs convC7 C7store).1 = some (1, 1) := by
  exact ⟨rfl, by decide, rfl⟩

/-- Concrete witness for `C7_amended_convert_pdfs` on the two-document
store. -/
theorem C7_amended_convert_pdfs_witness :
    (convert_pdfs convC7 C7store).2 = none ∧
    (convert_pdfs convC7 C7store).1 = some (1, 1) := by
  have h := C7_amended_convert_pdfs convC7 C7store
  refine ⟨h.1, ?_⟩
  have h4 := h.2.2.2 (by decide)
  rw [h4.1]; rfl

end Finsights
